import Mathlib

/-!
Shallow embedding of the escalation/triage core of the customer-service
chatbot (src/customer-service-bot/src/triage.py, retrieval.py,
response_generator.py), with theorems settling the frozen claims.

Modelling conventions:
* Python floats are modelled as rationals (ℚ); the threshold comparisons of
  `determine_confidence` are exact on the decimal literals involved.
* Python functions that may raise are modelled with `PyResult`: `ok v` is a
  normal return, `raised e` an escaping exception.
* The outcome of the external OpenAI sentiment call, as observed by
  `check_sentiment`, is modelled by `PyResult (Option SentimentData)`:
  `raised e` means the API call itself raised (network error, etc.),
  `ok none` means the call returned content on which the JSON parse in the
  `try` block raised, and `ok (some d)` means the content parsed to a JSON
  object whose "urgency" and "sentiment" entries are observed by `d`
  (`none` field = key absent, matching Python's `dict.get` returning `None`).
-/

/-- Boolean test that `pre` is a leading segment of the second list
(character-wise `==`). Used to model Python's `in` substring operator. -/
def startsWithL : List Char → List Char → Bool
  | [], _ => true
  | _ :: _, [] => false
  | a :: as, b :: bs => a == b && startsWithL as bs

/-- Boolean substring test on character lists: some suffix of the haystack
starts with the needle. -/
def containsSubL (needle : List Char) : List Char → Bool
  | [] => startsWithL needle []
  | b :: bs => startsWithL needle (b :: bs) || containsSubL needle bs

/-- Python's `needle in hay` for strings (substring containment). -/
def strContains (hay needle : String) : Bool :=
  containsSubL needle.data hay.data

/-- Python's `str.lower()` (ASCII fragment): every character lowercased. -/
def pyLower (s : String) : String :=
  String.mk (s.data.map Char.toLower)

/-- Python's `str.capitalize()` (ASCII fragment): first character uppercased,
the rest lowercased. -/
def pyCapitalize (s : String) : String :=
  match s.data with
  | [] => ""
  | c :: cs => String.mk (c.toUpper :: cs.map Char.toLower)

/-- `self.confidence_thresholds["high"]` from `TriageEngine.__init__`. -/
def confidence_thresholds_high : ℚ := 0.65

/-- `self.confidence_thresholds["medium"]` from `TriageEngine.__init__`. -/
def confidence_thresholds_medium : ℚ := 0.45

/-- `self.confidence_thresholds["low"]` from `TriageEngine.__init__`. -/
def confidence_thresholds_low : ℚ := 0.0

/-- `TriageEngine.determine_confidence` (triage.py lines 22-37). -/
def determine_confidence (top_similarity : ℚ) : String :=
  if confidence_thresholds_high ≤ top_similarity then "high"
  else if confidence_thresholds_medium ≤ top_similarity then "medium"
  else "low"

/-- Outcome of a Python call: normal return or escaped exception. -/
inductive PyResult (α : Type) where
  | ok (val : α)
  | raised (err : String)
deriving DecidableEq

/-- Observations `should_escalate` makes of the dict returned by
`check_sentiment`: the values of `.get("urgency")` and `.get("sentiment")`
(`none` = key absent). -/
structure SentimentData where
  urgency : Option String
  sentiment : Option String
deriving DecidableEq

/-- The fallback dict `{"urgency": "low", "sentiment": "neutral"}` returned
when JSON parsing of the probe response fails (triage.py line 67). -/
def default_sentiment : SentimentData :=
  { urgency := some "low", sentiment := some "neutral" }

/-- `TriageEngine.check_sentiment` (triage.py lines 39-67). The OpenAI call
at line 50 is outside the `try` block, so an exception from the call itself
propagates; only a failure of `json.loads` on the returned content is caught
and replaced by `default_sentiment`. -/
def check_sentiment (call : PyResult (Option SentimentData)) : PyResult SentimentData :=
  match call with
  | .raised e => .raised e
  | .ok none => .ok default_sentiment
  | .ok (some d) => .ok d

/-- The `human_keywords` list of `should_escalate` (triage.py line 84). -/
def human_keywords : List String :=
  ["speak to human", "talk to agent", "real person", "human agent"]

/-- `any(keyword in query.lower() for keyword in human_keywords)`
(triage.py line 85). -/
def explicit_request (query : String) : Bool :=
  human_keywords.any (fun k => strContains (pyLower query) k)

/-- Python's f-string rendering of an `Option String` value coming from
`dict.get`: `None` prints as "None". -/
def optStr : Option String → String
  | none => "None"
  | some s => s

/-- The escalation-decision dict returned by `should_escalate`. -/
structure Decision where
  escalate : Bool
  reason : String
  confidence : String
deriving DecidableEq

/-- `TriageEngine.should_escalate` (triage.py lines 69-118), parametrised by
the outcome of the sentiment probe call (only consulted on the medium-tier
path). -/
def should_escalate (query : String) (top_similarity : ℚ)
    (probe : PyResult (Option SentimentData)) : PyResult Decision :=
  let confidence := determine_confidence top_similarity
  if confidence == "low" then
    .ok { escalate := true, reason := "Low confidence in automated response",
          confidence := confidence }
  else if explicit_request query then
    .ok { escalate := true, reason := "Customer explicitly requested human assistance",
          confidence := confidence }
  else if confidence == "medium" then
    match check_sentiment probe with
    | .raised e => .raised e
    | .ok sentiment =>
      if sentiment.urgency == some "high" || sentiment.sentiment == some "negative" then
        .ok { escalate := true,
              reason := "Customer query shows " ++ optStr sentiment.sentiment ++
                " sentiment with " ++ optStr sentiment.urgency ++ " urgency",
              confidence := confidence }
      else
        .ok { escalate := false,
              reason := pyCapitalize confidence ++ " confidence in automated response",
              confidence := confidence }
  else
    .ok { escalate := false,
          reason := pyCapitalize confidence ++ " confidence in automated response",
          confidence := confidence }

/-- The dict returned by `VectorStore.query_tickets` (vector_store.py lines
133-153): the three parallel lists Chroma reports for the single query. -/
structure QueryResults where
  documents : List String
  distances : List ℚ
  ids : List String
deriving DecidableEq

/-- One record of the `formatted_results` list built by
`retrieve_relevant_tickets` (retrieval.py lines 34-39). -/
structure TicketRecord where
  content : String
  similarity : ℚ
  id : String
deriving DecidableEq

/-- The dict returned by `retrieve_relevant_tickets`
(retrieval.py lines 41-44). -/
structure RetrievalOutput where
  results : List TicketRecord
  top_similarity : ℚ
deriving DecidableEq

/-- The loop `for i in range(len(results["documents"]))` of
`retrieve_relevant_tickets` (retrieval.py lines 34-39): builds one record per
document, reading `distances[i]` and `ids[i]`; `none` models the `IndexError`
raised when either list is shorter than `documents`. -/
def buildRecords : List String → List ℚ → List String → Option (List TicketRecord)
  | [], _, _ => some []
  | doc :: docs, dist :: dists, tid :: tids =>
    match buildRecords docs dists tids with
    | none => none
    | some rest => some ({ content := doc, similarity := 1 - dist, id := tid } :: rest)
  | _ :: _, _, _ => none

/-- `RetrievalEngine.retrieve_relevant_tickets` (retrieval.py lines 18-44),
as a function of the vector store's query result. `top_similarity` is
`1.0 - results["distances"][0] if results["distances"] else 0`. -/
def retrieve_relevant_tickets (r : QueryResults) : Option RetrievalOutput :=
  match buildRecords r.documents r.distances r.ids with
  | none => none
  | some formatted =>
    some { results := formatted,
           top_similarity :=
             match r.distances with
             | [] => 0
             | d :: _ => 1 - d }

/-- The system prompt built on the `if escalate:` branch of
`ResponseGenerator.generate_response` (response_generator.py lines 39-50). -/
def escalate_path_prompt (query context reason : String) : String :=
  "You are a helpful customer service assistant for Capital Area Food bank organization. \n            The customer has asked: \"" ++ query ++
  "\"\n            \n            Based on our analysis, this query should be handled by a human agent because: " ++ reason ++
  "\n            \n            However, you can still provide a helpful initial response. Use the following similar past tickets as reference:\n            \n            " ++ context ++
  "\n            \n            Respond in a helpful manner, but clearly indicate that you\x27ll connect them with a human agent for further assistance.\n            "

/-- The system prompt built on the `elif confidence == "high":` branch of
`ResponseGenerator.generate_response` (response_generator.py lines 51-60). -/
def high_path_prompt (query context : String) : String :=
  "You are a helpful customer service assistant for a food bank organization.\n            The customer has asked: \"" ++ query ++
  "\"\n            \n            Based on our records, we have high confidence in addressing this query. Use the following similar past tickets as reference:\n            \n            " ++ context ++
  "\n            \n            Provide a clear, direct answer based on these similar cases. Be concise but thorough.\n            "

/-- The system prompt built on the final `else:` (medium-confidence) branch
of `ResponseGenerator.generate_response` (response_generator.py lines 61-70). -/
def medium_path_prompt (query context : String) : String :=
  "You are a helpful customer service assistant for a food bank organization.\n            The customer has asked: \"" ++ query ++
  "\"\n            \n            We have found some potentially relevant past tickets, but they may not fully address the question. Use them as guidance:\n            \n            " ++ context ++
  "\n            \n            Provide a helpful response based on the information available, but indicate any areas where you\x27re uncertain or where the customer might need additional assistance.\n            "

/-- The dict returned by `ResponseGenerator.generate_response`
(response_generator.py lines 83-88). -/
structure Response where
  response_text : String
  confidence : String
  should_escalate : Bool
  reason : String
deriving DecidableEq

/-- `ResponseGenerator.generate_response` (response_generator.py lines
23-88), parametrised by the external LLM call `llm system_prompt query`. -/
def generate_response (query context : String) (triage_result : Decision)
    (llm : String → String → String) : Response :=
  let confidence := triage_result.confidence
  let escalate := triage_result.escalate
  let system_prompt :=
    if escalate then escalate_path_prompt query context triage_result.reason
    else if confidence == "high" then high_path_prompt query context
    else medium_path_prompt query context
  { response_text := llm system_prompt query,
    confidence := confidence,
    should_escalate := escalate,
    reason := triage_result.reason }

/-! Helper lemmas about the confidence classifier. -/

theorem det_high {s : ℚ} (h : (0.65:ℚ) ≤ s) : determine_confidence s = "high" := by
  unfold determine_confidence confidence_thresholds_high
  rw [if_pos h]

theorem det_medium {s : ℚ} (h1 : (0.45:ℚ) ≤ s) (h2 : s < (0.65:ℚ)) :
    determine_confidence s = "medium" := by
  unfold determine_confidence confidence_thresholds_high confidence_thresholds_medium
  rw [if_neg (not_le.mpr h2), if_pos h1]

theorem det_low {s : ℚ} (h : s < (0.45:ℚ)) : determine_confidence s = "low" := by
  have h1 : ¬ (0.65:ℚ) ≤ s := not_le.mpr (h.trans (by norm_num))
  have h2 : ¬ (0.45:ℚ) ≤ s := not_le.mpr h
  unfold determine_confidence confidence_thresholds_high confidence_thresholds_medium
  rw [if_neg h1, if_neg h2]

/-- Claim C4: `determine_confidence` is total on ℚ and returns "high" iff
s ≥ 0.65, "medium" iff 0.45 ≤ s < 0.65, "low" iff s < 0.45; both lower
boundaries are inclusive, and out-of-range inputs are classified without
error (negative scores are "low", scores above 1 are "high"). -/
theorem c4_determine_confidence_characterisation :
    (∀ s : ℚ, (determine_confidence s = "high" ↔ (0.65:ℚ) ≤ s)
      ∧ (determine_confidence s = "medium" ↔ (0.45:ℚ) ≤ s ∧ s < (0.65:ℚ))
      ∧ (determine_confidence s = "low" ↔ s < (0.45:ℚ)))
    ∧ determine_confidence (0.65:ℚ) = "high"
    ∧ determine_confidence (0.45:ℚ) = "medium"
    ∧ determine_confidence (0.649999:ℚ) = "medium"
    ∧ determine_confidence (0.449999:ℚ) = "low"
    ∧ (∀ s : ℚ, s < 0 → determine_confidence s = "low")
    ∧ (∀ s : ℚ, 1 < s → determine_confidence s = "high") := by
  refine ⟨fun s => ⟨⟨?_, det_high⟩, ⟨?_, fun h => det_medium h.1 h.2⟩, ⟨?_, det_low⟩⟩,
    det_high (by norm_num), det_medium (by norm_num) (by norm_num),
    det_medium (by norm_num) (by norm_num), det_low (by norm_num),
    fun s h => det_low (h.trans (by norm_num)),
    fun s h => det_high ((by norm_num : (0.65:ℚ) ≤ 1).trans h.le)⟩
  · intro h
    by_contra hc
    push_neg at hc
    rcases lt_or_le s (0.45:ℚ) with h' | h'
    · rw [det_low h'] at h; exact absurd h (by decide)
    · rw [det_medium h' hc] at h; exact absurd h (by decide)
  · intro h
    rcases lt_or_le s (0.45:ℚ) with h' | h'
    · rw [det_low h'] at h; exact absurd h (by decide)
    · refine ⟨h', ?_⟩
      by_contra hc
      push_neg at hc
      rw [det_high hc] at h; exact absurd h (by decide)
  · intro h
    by_contra hc
    push_neg at hc
    rcases lt_or_le s (0.65:ℚ) with h' | h'
    · rw [det_medium hc h'] at h; exact absurd h (by decide)
    · rw [det_high h'] at h; exact absurd h (by decide)

/-- Witness for C4: the characterisation applied at the concrete score 0.3. -/
theorem c4_witness : determine_confidence (0.3:ℚ) = "low" :=
  ((c4_determine_confidence_characterisation.1 (0.3:ℚ)).2.2).mpr (by norm_num)

/-- Claim C1 (amended): any score below 0.45 (tier "low") escalates with
reason "Low confidence in automated response" (capital L, as the source
writes it) and confidence "low", for every query and every probe outcome. -/
theorem c1_low_tier_escalates (q : String) (s : ℚ)
    (p : PyResult (Option SentimentData)) (h : s < (0.45:ℚ)) :
    should_escalate q s p = PyResult.ok
      { escalate := true, reason := "Low confidence in automated response",
        confidence := "low" } := by
  have hl := det_low h
  unfold should_escalate
  rw [hl]
  rfl

/-- Counterexample for C1 as stated: at query "hello" and score 0.1 the
decision's reason is "Low confidence in automated response", not the
claimed all-lowercase "low confidence in automated response". -/
theorem c1_counterexample :
    should_escalate "hello" (0.1:ℚ) (PyResult.raised "boom") = PyResult.ok
      { escalate := true, reason := "Low confidence in automated response",
        confidence := "low" }
    ∧ should_escalate "hello" (0.1:ℚ) (PyResult.raised "boom") ≠ PyResult.ok
      { escalate := true, reason := "low confidence in automated response",
        confidence := "low" } := by
  have h : should_escalate "hello" (0.1:ℚ) (PyResult.raised "boom") = PyResult.ok
      { escalate := true, reason := "Low confidence in automated response",
        confidence := "low" } := by
    unfold should_escalate
    rw [det_low (by norm_num)]
    rfl
  refine ⟨h, ?_⟩
  rw [h]
  decide

/-- Witness for C1: the amended theorem applied at query "hello", score 0.1,
probe raising "boom". -/
theorem c1_witness :
    should_escalate "hello" (0.1:ℚ) (PyResult.raised "boom") = PyResult.ok
      { escalate := true, reason := "Low confidence in automated response",
        confidence := "low" } :=
  c1_low_tier_escalates "hello" (0.1:ℚ) (PyResult.raised "boom") (by norm_num)

/-- Claim C2 (amended): if the query contains one of the four human-request
phrases (case-insensitively) and the score is at least 0.45 (tier "medium"
or "high"), the decision escalates with reason "Customer explicitly
requested human assistance" (capital C, as the source writes it), for every
probe outcome. -/
theorem c2_explicit_request_escalates (q : String) (s : ℚ)
    (p : PyResult (Option SentimentData))
    (hq : explicit_request q = true) (hs : (0.45:ℚ) ≤ s) :
    should_escalate q s p = PyResult.ok
      { escalate := true, reason := "Customer explicitly requested human assistance",
        confidence := determine_confidence s } := by
  rcases lt_or_le s (0.65:ℚ) with h | h
  · have hm := det_medium hs h
    unfold should_escalate
    rw [hm, hq]
    rfl
  · have hh := det_high h
    unfold should_escalate
    rw [hh, hq]
    rfl

/-- Counterexample for C2 as stated: at "I want to talk to agent please" and
score 0.9 the reason is "Customer explicitly requested human assistance",
not the claimed all-lowercase variant. -/
theorem c2_counterexample :
    should_escalate "I want to talk to agent please" (0.9:ℚ) (PyResult.raised "x")
      = PyResult.ok
        { escalate := true, reason := "Customer explicitly requested human assistance",
          confidence := "high" }
    ∧ should_escalate "I want to talk to agent please" (0.9:ℚ) (PyResult.raised "x")
      ≠ PyResult.ok
        { escalate := true, reason := "customer explicitly requested human assistance",
          confidence := "high" } := by
  have h : should_escalate "I want to talk to agent please" (0.9:ℚ) (PyResult.raised "x")
      = PyResult.ok
        { escalate := true, reason := "Customer explicitly requested human assistance",
          confidence := "high" } := by
    unfold should_escalate
    rw [det_high (by norm_num),
      show explicit_request "I want to talk to agent please" = true from by decide]
    rfl
  refine ⟨h, ?_⟩
  rw [h]
  decide

/-- Witness for C2: the amended theorem applied at the spec's own example
query and score 0.9. -/
theorem c2_witness :
    should_escalate "I want to talk to agent please" (0.9:ℚ) (PyResult.raised "x")
      = PyResult.ok
        { escalate := true, reason := "Customer explicitly requested human assistance",
          confidence := determine_confidence (0.9:ℚ) } :=
  c2_explicit_request_escalates "I want to talk to agent please" (0.9:ℚ)
    (PyResult.raised "x") (by decide) (by norm_num)

/-- Claim C3 (amended): with no human-request phrase and a medium-tier score
(0.45 ≤ s < 0.65), the probe is consulted and the decision escalates with
reason "Customer query shows {sentiment} sentiment with {urgency} urgency"
(capital C, as the source writes it) exactly when the probe reports urgency
"high" or sentiment "negative"; otherwise it does not escalate and the
reason is "Medium confidence in automated response" (capital M, from
`str.capitalize`). -/
theorem c3_medium_tier_sentiment (q : String) (s : ℚ) (d : SentimentData)
    (hq : explicit_request q = false) (h1 : (0.45:ℚ) ≤ s) (h2 : s < (0.65:ℚ)) :
    should_escalate q s (PyResult.ok (some d)) =
      if d.urgency == some "high" || d.sentiment == some "negative" then
        PyResult.ok
          { escalate := true,
            reason := "Customer query shows " ++ optStr d.sentiment ++
              " sentiment with " ++ optStr d.urgency ++ " urgency",
            confidence := "medium" }
      else
        PyResult.ok
          { escalate := false, reason := "Medium confidence in automated response",
            confidence := "medium" } := by
  have hm := det_medium h1 h2
  unfold should_escalate
  rw [hm, hq]
  rfl

/-- Counterexample for C3 as stated: at query "hello", score 0.5, and a
probe reporting urgency "high" and sentiment "negative", the reason starts
with a capital C, not the claimed all-lowercase "customer query shows ...". -/
theorem c3_counterexample :
    should_escalate "hello" (0.5:ℚ)
        (PyResult.ok (some { urgency := some "high", sentiment := some "negative" }))
      = PyResult.ok
        { escalate := true,
          reason := "Customer query shows negative sentiment with high urgency",
          confidence := "medium" }
    ∧ should_escalate "hello" (0.5:ℚ)
        (PyResult.ok (some { urgency := some "high", sentiment := some "negative" }))
      ≠ PyResult.ok
        { escalate := true,
          reason := "customer query shows negative sentiment with high urgency",
          confidence := "medium" } := by
  have h : should_escalate "hello" (0.5:ℚ)
      (PyResult.ok (some { urgency := some "high", sentiment := some "negative" }))
      = PyResult.ok
        { escalate := true,
          reason := "Customer query shows negative sentiment with high urgency",
          confidence := "medium" } := by
    unfold should_escalate
    rw [det_medium (by norm_num) (by norm_num),
      show explicit_request "hello" = false from by decide]
    rfl
  refine ⟨h, ?_⟩
  rw [h]
  decide

/-- Witness for C3: the amended theorem applied at query "hello", score 0.5,
and a probe reporting urgency "high" and sentiment "negative", evaluated. -/
theorem c3_witness :
    should_escalate "hello" (0.5:ℚ)
        (PyResult.ok (some { urgency := some "high", sentiment := some "negative" }))
      = PyResult.ok
        { escalate := true,
          reason := "Customer query shows negative sentiment with high urgency",
          confidence := "medium" } :=
  (c3_medium_tier_sentiment "hello" (0.5:ℚ)
      { urgency := some "high", sentiment := some "negative" }
      (by decide) (by norm_num) (by norm_num)).trans (by decide)

/-- Claim C5 (amended): with no human-request phrase and a score of at least
0.65 (tier "high"), the decision is escalate = false with reason "High
confidence in automated response" (capital H, as the source writes it) for
every probe outcome, so the decision is identical for any two probes — the
sentiment probe is never consulted at high tier. -/
theorem c5_high_tier_ignores_probe (q : String) (s : ℚ)
    (hq : explicit_request q = false) (hs : (0.65:ℚ) ≤ s) :
    (∀ p, should_escalate q s p = PyResult.ok
      { escalate := false, reason := "High confidence in automated response",
        confidence := "high" })
    ∧ ∀ p₁ p₂, should_escalate q s p₁ = should_escalate q s p₂ := by
  have hmain : ∀ p, should_escalate q s p = PyResult.ok
      { escalate := false, reason := "High confidence in automated response",
        confidence := "high" } := by
    intro p
    unfold should_escalate
    rw [det_high hs, hq]
    rfl
  exact ⟨hmain, fun p₁ p₂ => (hmain p₁).trans (hmain p₂).symm⟩

/-- Counterexample for C5 as stated: at query "what is the weather" and
score 0.8 the reason is "High confidence in automated response", not the
claimed all-lowercase "high confidence in automated response". -/
theorem c5_counterexample :
    should_escalate "what is the weather" (0.8:ℚ) (PyResult.raised "x")
      = PyResult.ok
        { escalate := false, reason := "High confidence in automated response",
          confidence := "high" }
    ∧ should_escalate "what is the weather" (0.8:ℚ) (PyResult.raised "x")
      ≠ PyResult.ok
        { escalate := false, reason := "high confidence in automated response",
          confidence := "high" } := by
  have h : should_escalate "what is the weather" (0.8:ℚ) (PyResult.raised "x")
      = PyResult.ok
        { escalate := false, reason := "High confidence in automated response",
          confidence := "high" } := by
    unfold should_escalate
    rw [det_high (by norm_num),
      show explicit_request "what is the weather" = false from by decide]
    rfl
  refine ⟨h, ?_⟩
  rw [h]
  decide

/-- Witness for C5: the amended theorem applied at query "hello", score 0.8,
and a probe that would raise. -/
theorem c5_witness :
    should_escalate "hello" (0.8:ℚ) (PyResult.raised "network down")
      = PyResult.ok
        { escalate := false, reason := "High confidence in automated response",
          confidence := "high" } :=
  (c5_high_tier_ignores_probe "hello" (0.8:ℚ) (by decide) (by norm_num)).1
    (PyResult.raised "network down")

/-- Claim C6 (amended): if the probe's response is unparsable,
`check_sentiment` substitutes the default (urgency "low", sentiment
"neutral") and `should_escalate` still returns a well-formed decision; but
if the underlying probe call itself raises (e.g. a network error), the
exception propagates out of `check_sentiment` — the call at triage.py line
50 sits outside the `try` block, so only parse failures degrade safely. -/
theorem c6_probe_failure_handling :
    (∀ e, check_sentiment (PyResult.raised e) = PyResult.raised e)
    ∧ check_sentiment (PyResult.ok none) = PyResult.ok default_sentiment
    ∧ (∀ (q : String) (s : ℚ), ∃ d,
        should_escalate q s (PyResult.ok none) = PyResult.ok d) := by
  refine ⟨fun e => rfl, rfl, fun q s => ?_⟩
  rcases lt_or_le s (0.45:ℚ) with h | h
  · exact ⟨_, by unfold should_escalate; rw [det_low h]; rfl⟩
  · have hexp : explicit_request q = true ∨ explicit_request q = false := by
      cases explicit_request q
      · exact Or.inr rfl
      · exact Or.inl rfl
    rcases lt_or_le s (0.65:ℚ) with h2 | h2
    · rcases hexp with he | he
      · exact ⟨_, by unfold should_escalate; rw [det_medium h h2, he]; rfl⟩
      · exact ⟨_, by unfold should_escalate; rw [det_medium h h2, he]; rfl⟩
    · rcases hexp with he | he
      · exact ⟨_, by unfold should_escalate; rw [det_high h2, he]; rfl⟩
      · exact ⟨_, by unfold should_escalate; rw [det_high h2, he]; rfl⟩

/-- Counterexample for C6 as stated: a probe call that raises "network
error" propagates out of `check_sentiment` instead of being replaced by the
default, and at a medium-tier score the exception escapes `should_escalate`
as well, so no decision is returned. -/
theorem c6_counterexample :
    check_sentiment (PyResult.raised "network error") = PyResult.raised "network error"
    ∧ check_sentiment (PyResult.raised "network error") ≠ PyResult.ok default_sentiment
    ∧ should_escalate "hello" (0.5:ℚ) (PyResult.raised "network error")
        = PyResult.raised "network error" := by
  refine ⟨rfl, by decide, ?_⟩
  unfold should_escalate
  rw [det_medium (by norm_num) (by norm_num),
    show explicit_request "hello" = false from by decide]
  rfl

/-- Witness for C6: the amended theorem applied to a concrete raising call. -/
theorem c6_witness :
    check_sentiment (PyResult.raised "network down") = PyResult.raised "network down" :=
  c6_probe_failure_handling.1 "network down"

/-- Claim C10: whatever branch fires, the decision's confidence field equals
`determine_confidence` of the similarity handed to `should_escalate`. -/
theorem c10_confidence_matches_classifier (q : String) (s : ℚ)
    (p : PyResult (Option SentimentData)) (d : Decision)
    (h : should_escalate q s p = PyResult.ok d) :
    d.confidence = determine_confidence s := by
  simp only [should_escalate] at h
  split at h
  · cases h; rfl
  · split at h
    · cases h; rfl
    · split at h
      · split at h
        · exact absurd h (by simp)
        · split at h
          · cases h; rfl
          · cases h; rfl
      · cases h; rfl

/-- Witness for C10: the theorem applied at query "hello", score 0.8, a
raising probe, and the decision that call returns. -/
theorem c10_witness :
    ({ escalate := false, reason := "High confidence in automated response",
        confidence := "high" } : Decision).confidence = determine_confidence (0.8:ℚ) :=
  c10_confidence_matches_classifier "hello" (0.8:ℚ) (PyResult.raised "x")
    { escalate := false, reason := "High confidence in automated response",
      confidence := "high" }
    (by unfold should_escalate
        rw [det_high (by norm_num),
          show explicit_request "hello" = false from by decide]
        rfl)

/-! Helper lemmas about the retrieval loop. -/

theorem buildRecords_isSome : ∀ (docs : List String) (dists : List ℚ) (tids : List String),
    docs.length = dists.length → docs.length = tids.length →
    ∃ l, buildRecords docs dists tids = some l := by
  intro docs
  induction docs with
  | nil => exact fun dists tids _ _ => ⟨[], rfl⟩
  | cons doc docs ih =>
    intro dists tids h1 h2
    cases dists with
    | nil => simp at h1
    | cons dd dds =>
      cases tids with
      | nil => simp at h2
      | cons t ts =>
        obtain ⟨l, hl⟩ := ih dds ts (by simpa using h1) (by simpa using h2)
        refine ⟨{ content := doc, similarity := 1 - dd, id := t } :: l, ?_⟩
        unfold buildRecords
        rw [hl]

theorem buildRecords_similarity_mem :
    ∀ (docs : List String) (dists : List ℚ) (tids : List String) (l : List TicketRecord),
    buildRecords docs dists tids = some l →
    ∀ rec ∈ l, ∃ dist ∈ dists, rec.similarity = 1 - dist := by
  intro docs
  induction docs with
  | nil =>
    intro dists tids l h rec hrec
    simp only [buildRecords, Option.some.injEq] at h
    subst h
    simp at hrec
  | cons doc docs ih =>
    intro dists tids l h rec hrec
    cases dists with
    | nil => simp [buildRecords] at h
    | cons dd dds =>
      cases tids with
      | nil => simp [buildRecords] at h
      | cons t ts =>
        cases hb : buildRecords docs dds ts with
        | none => unfold buildRecords at h; rw [hb] at h; cases h
        | some rest =>
          unfold buildRecords at h
          rw [hb] at h
          cases h
          rcases List.mem_cons.mp hrec with heq | hmem
          · exact ⟨dd, List.mem_cons_self dd dds, by rw [heq]⟩
          · obtain ⟨dist, hdmem, heq⟩ := ih dds ts rest hb rec hmem
            exact ⟨dist, List.mem_cons_of_mem dd hdmem, heq⟩

/-- Claim C7: for any store result whose three lists are parallel (equal
lengths, as Chroma returns them), `retrieve_relevant_tickets` succeeds;
its `top_similarity` is 0 when the distance list is empty and otherwise
equals `1 - first distance`, which is also the similarity of the first
formatted record. -/
theorem c7_top_similarity (r : QueryResults)
    (h1 : r.documents.length = r.distances.length)
    (h2 : r.documents.length = r.ids.length) :
    ∃ out, retrieve_relevant_tickets r = some out
      ∧ (r.distances = [] → out.top_similarity = 0)
      ∧ ∀ d ds, r.distances = d :: ds →
          out.top_similarity = 1 - d
          ∧ ∃ rec rest, out.results = rec :: rest ∧ rec.similarity = 1 - d := by
  obtain ⟨docs, dists, tids⟩ := r
  simp only at h1 h2
  cases dists with
  | nil =>
    cases docs with
    | cons doc docs2 => simp at h1
    | nil =>
      refine ⟨{ results := [], top_similarity := 0 }, ?_, fun _ => rfl,
        fun d ds h => List.noConfusion h⟩
      cases tids with
      | nil => rfl
      | cons t ts => simp at h2
  | cons d ds =>
    cases docs with
    | nil => simp at h1
    | cons doc docs2 =>
      cases tids with
      | nil => simp at h2
      | cons t ts =>
        obtain ⟨l2, hl2⟩ := buildRecords_isSome docs2 ds ts (by simpa using h1) (by simpa using h2)
        refine ⟨{ results := { content := doc, similarity := 1 - d, id := t } :: l2,
                  top_similarity := 1 - d }, ?_, ?_, ?_⟩
        · unfold retrieve_relevant_tickets buildRecords
          rw [hl2]
        · intro hcontra
          exact List.noConfusion hcontra
        · intro d2 ds2 heq
          injection heq with hd hds
          subst hd
          exact ⟨rfl, { content := doc, similarity := 1 - d, id := t }, l2, rfl, rfl⟩

/-- Witness for C7: the theorem applied to a one-record store result with
distance 0.2, giving top similarity 1 - 0.2. -/
theorem c7_witness :
    ∃ out, retrieve_relevant_tickets
        { documents := ["a"], distances := [(0.2:ℚ)], ids := ["i1"] } = some out
      ∧ out.top_similarity = 1 - (0.2:ℚ) := by
  obtain ⟨out, hret, _, hcons⟩ := c7_top_similarity
    { documents := ["a"], distances := [(0.2:ℚ)], ids := ["i1"] } (by decide) (by decide)
  exact ⟨out, hret, (hcons (0.2:ℚ) [] rfl).1⟩

/-- Claim C9 (amended): a record's similarity `1 - distance` lies in [0,1]
exactly when the store's distance lies in [0,1]; under the hypothesis that
every reported distance is in [0,1], every formatted record's similarity is
in [0,1]. The unconditional claim fails: the source puts no bound on the
distances, and a distance above 1 yields a negative similarity. -/
theorem c9_similarity_in_range (r : QueryResults) (out : RetrievalOutput)
    (hd : ∀ dist ∈ r.distances, 0 ≤ dist ∧ dist ≤ 1)
    (h : retrieve_relevant_tickets r = some out) :
    ∀ rec ∈ out.results, 0 ≤ rec.similarity ∧ rec.similarity ≤ 1 := by
  intro rec hrec
  unfold retrieve_relevant_tickets at h
  cases hb : buildRecords r.documents r.distances r.ids with
  | none => rw [hb] at h; cases h
  | some l =>
    rw [hb] at h
    cases h
    obtain ⟨dist, hdmem, heq⟩ :=
      buildRecords_similarity_mem r.documents r.distances r.ids l hb rec hrec
    obtain ⟨hd0, hd1⟩ := hd dist hdmem
    rw [heq]
    constructor
    · linarith
    · linarith

/-- Counterexample for C9 as stated: a store result with distance 1.5 — the
code places no bound on distances — produces a record whose similarity
1 - 1.5 is negative, outside the promised [0,1] range. -/
theorem c9_counterexample :
    retrieve_relevant_tickets { documents := ["doc"], distances := [(1.5:ℚ)], ids := ["t1"] }
      = some { results := [{ content := "doc", similarity := 1 - (1.5:ℚ), id := "t1" }],
               top_similarity := 1 - (1.5:ℚ) }
    ∧ ¬ (0 ≤ 1 - (1.5:ℚ)) := by
  constructor
  · rfl
  · norm_num

/-- Witness for C9: the amended theorem applied to a one-record result with
distance 0.5. -/
theorem c9_witness :
    0 ≤ ({ content := "a", similarity := 1 - (0.5:ℚ), id := "i" } : TicketRecord).similarity
    ∧ ({ content := "a", similarity := 1 - (0.5:ℚ), id := "i" } : TicketRecord).similarity ≤ 1 := by
  refine c9_similarity_in_range
    { documents := ["a"], distances := [(0.5:ℚ)], ids := ["i"] }
    { results := [{ content := "a", similarity := 1 - (0.5:ℚ), id := "i" }],
      top_similarity := 1 - (0.5:ℚ) }
    (by intro dist hdist; rw [List.mem_singleton.mp hdist]; norm_num)
    rfl
    { content := "a", similarity := 1 - (0.5:ℚ), id := "i" }
    (List.mem_singleton.mpr rfl)

/-- Claim C8: `generate_response` copies the decision's confidence, escalate
flag, and reason into the returned Response unchanged, and picks exactly one
of the three system prompts keyed by (escalate, confidence): the
escalate-path prompt when escalate is set, else the high-path prompt when
confidence is "high", else the medium-path prompt. -/
theorem c8_response_frame (q c : String) (d : Decision)
    (llm : String → String → String) :
    (generate_response q c d llm).confidence = d.confidence
    ∧ (generate_response q c d llm).should_escalate = d.escalate
    ∧ (generate_response q c d llm).reason = d.reason
    ∧ (d.escalate = true →
        (generate_response q c d llm).response_text
          = llm (escalate_path_prompt q c d.reason) q)
    ∧ (d.escalate = false → d.confidence = "high" →
        (generate_response q c d llm).response_text = llm (high_path_prompt q c) q)
    ∧ (d.escalate = false → d.confidence ≠ "high" →
        (generate_response q c d llm).response_text = llm (medium_path_prompt q c) q) := by
  refine ⟨rfl, rfl, rfl, ?_, ?_, ?_⟩
  · intro he
    simp [generate_response, he]
  · intro he hc
    simp [generate_response, he, hc]
  · intro he hc
    have hb : (d.confidence == "high") = false := beq_eq_false_iff_ne.mpr hc
    simp [generate_response, he, hb]

/-- Witness for C8: the theorem applied to an escalating decision and a
concrete LLM stub. -/
theorem c8_witness :
    (generate_response "q" "ctx"
        { escalate := true, reason := "r", confidence := "high" }
        (fun sp u => sp ++ "|" ++ u)).reason = "r"
    ∧ (generate_response "q" "ctx"
        { escalate := true, reason := "r", confidence := "high" }
        (fun sp u => sp ++ "|" ++ u)).response_text
      = (fun sp u => sp ++ "|" ++ u) (escalate_path_prompt "q" "ctx" "r") "q" :=
  ⟨(c8_response_frame "q" "ctx" { escalate := true, reason := "r", confidence := "high" }
      (fun sp u => sp ++ "|" ++ u)).2.2.1,
   (c8_response_frame "q" "ctx" { escalate := true, reason := "r", confidence := "high" }
      (fun sp u => sp ++ "|" ++ u)).2.2.2.1 rfl⟩
